import Mathlib

/-!
Verification of the booking admission checker and status-transition guard
of the alx_travel_app listings component (`BookingCreateSerializer`,
`BookingUpdateSerializer` in `listings/serializers.py`).

Dates are modelled as integers (day numbers), monetary amounts as rationals
(the source stores decimals), and the databases of listings and bookings as
lists. Field-level validators run first and collect one error per offending
field (framework semantics of per-field `validate_<field>` methods); the
cross-field `validate` method runs only when every field-level check passed
and raises on the first violated constraint.
-/

namespace AlxTravel

/-- Booking status values of the Booking model. -/
inductive BStatus where
  | pending
  | confirmed
  | cancelled
  | completed
deriving DecidableEq, Repr, Fintype

/-- Modelled from the spec: the Listing fields read by the admission checker
(the Listing model itself is not part of the supplied sources). `maximum_stay`
is nullable in the source; `none` models a null value. -/
structure Listing where
  id : Nat
  status : String
  is_available : Bool
  max_guests : Int
  minimum_stay : Int
  maximum_stay : Option Int
  price_per_night : Rat
deriving DecidableEq, Repr

/-- Modelled from the spec: the Booking fields read and written by the
serializers (the Booking model itself is not part of the supplied sources). -/
structure Booking where
  listing_id : Nat
  user_id : Nat
  check_in_date : Int
  check_out_date : Int
  guests : Int
  total_price : Rat
  status : BStatus
  special_requests : String
deriving DecidableEq, Repr

/-- The writable input of `BookingCreateSerializer`
(`listing_id`, `check_in_date`, `check_out_date`, `guests`, `special_requests`). -/
structure BookingRequest where
  listing_id : Nat
  check_in_date : Int
  check_out_date : Int
  guests : Int
  special_requests : String
deriving DecidableEq, Repr

/-- The validation errors the booking serializers can raise, one constructor
per distinct `ValidationError` site in `BookingCreateSerializer`. -/
inductive VError where
  | invalidListing
  | checkInNotFuture
  | checkOutNotFuture
  | guestsNotPositive
  | invalidDateRange
  | capacityExceeded
  | minStayTooShort
  | maxStayTooLong
  | dateRangeUnavailable
deriving DecidableEq, Repr, Fintype

/-- The field key each error is raised under in the source; `none` for the
overlap error, which is raised with a bare message (a non-field error). -/
def errorField : VError → Option String
  | VError.invalidListing => some "listing_id"
  | VError.checkInNotFuture => some "check_in_date"
  | VError.checkOutNotFuture => some "check_out_date"
  | VError.guestsNotPositive => some "guests"
  | VError.invalidDateRange => some "check_out_date"
  | VError.capacityExceeded => some "guests"
  | VError.minStayTooShort => some "check_out_date"
  | VError.maxStayTooLong => some "check_out_date"
  | VError.dateRangeUnavailable => none

/-- `Listing.objects.get(id=value, status='published', is_available=True)`:
lookup of a published, available listing by id. -/
def lookupPublishedAvailable (listings : List Listing) (i : Nat) : Option Listing :=
  listings.find? (fun l => l.id == i && l.status == "published" && l.is_available)

/-- `Listing.objects.get(id=attrs['listing_id'])`: plain lookup by id. -/
def lookupById (listings : List Listing) (i : Nat) : Option Listing :=
  listings.find? (fun l => l.id == i)

/-- Field-level validation of `BookingCreateSerializer`: the validators
`validate_listing_id`, `validate_check_in_date`, `validate_check_out_date` and
`validate_guests`, run over every field with their errors collected in field
order. -/
def fieldErrors (listings : List Listing) (today : Int) (req : BookingRequest) :
    List VError :=
  (if lookupPublishedAvailable listings req.listing_id = none then
    [VError.invalidListing] else [])
  ++ (if req.check_in_date ≤ today then [VError.checkInNotFuture] else [])
  ++ (if req.check_out_date ≤ today then [VError.checkOutNotFuture] else [])
  ++ (if req.guests ≤ 0 then [VError.guestsNotPositive] else [])

/-- `status__in=['confirmed', 'pending']` filter condition. -/
def isActive (b : Booking) : Bool :=
  b.status == BStatus.confirmed || b.status == BStatus.pending

/-- `check_in_date__lt=attrs['check_out_date'], check_out_date__gt=attrs['check_in_date']`:
the half-open overlap condition of the queryset filter. -/
def overlapsRange (b : Booking) (check_in check_out : Int) : Bool :=
  decide (b.check_in_date < check_out) && decide (b.check_out_date > check_in)

/-- `Booking.objects.filter(listing=..., status__in=..., ...).exists()`:
whether some pending-or-confirmed booking of the listing overlaps the range. -/
def hasOverlap (bookings : List Booking) (lid : Nat) (check_in check_out : Int) :
    Bool :=
  bookings.any (fun b =>
    b.listing_id == lid && isActive b && overlapsRange b check_in check_out)

/-- `listing.maximum_stay and duration > listing.maximum_stay`: the maximum-stay
guard uses Python truthiness, so a null or zero `maximum_stay` disables it. -/
def maxStayExceeded (m : Option Int) (duration : Int) : Bool :=
  match m with
  | none => false
  | some v => v != 0 && decide (duration > v)

/-- The cross-field `validate` method of `BookingCreateSerializer`: date order,
guest capacity, minimum stay, maximum stay, then overlap, raising on the first
violated constraint. -/
def crossValidate (l : Listing) (bookings : List Booking) (req : BookingRequest) :
    Option VError :=
  if req.check_out_date ≤ req.check_in_date then some VError.invalidDateRange
  else if req.guests > l.max_guests then some VError.capacityExceeded
  else if req.check_out_date - req.check_in_date < l.minimum_stay then
    some VError.minStayTooShort
  else if maxStayExceeded l.maximum_stay (req.check_out_date - req.check_in_date) = true then
    some VError.maxStayTooLong
  else if hasOverlap bookings l.id req.check_in_date req.check_out_date = true then
    some VError.dateRangeUnavailable
  else none

/-- The `create` method of `BookingCreateSerializer`: the booking row it
inserts, with `total_price = listing.price_per_night * duration` and the
model's initial `pending` status. -/
def createBooking (l : Listing) (user : Nat) (req : BookingRequest) : Booking :=
  { listing_id := l.id
    user_id := user
    check_in_date := req.check_in_date
    check_out_date := req.check_out_date
    guests := req.guests
    total_price := l.price_per_night * ((req.check_out_date - req.check_in_date : Int) : Rat)
    status := BStatus.pending
    special_requests := req.special_requests }

/-- Outcome of an admission attempt. `crash` models an uncaught
`DoesNotExist` from the unguarded `Listing.objects.get` inside `validate`. -/
inductive AdmitResult where
  | ok (b : Booking)
  | err (errs : List VError)
  | crash
deriving DecidableEq, Repr

/-- The whole admission pipeline: field validation (errors collected), then
the cross-field `validate` (fail-fast), then `create`. -/
def admitBooking (listings : List Listing) (bookings : List Booking)
    (today : Int) (user : Nat) (req : BookingRequest) : AdmitResult :=
  if (fieldErrors listings today req).isEmpty then
    match lookupById listings req.listing_id with
    | none => AdmitResult.crash
    | some l =>
      match crossValidate l bookings req with
      | some e => AdmitResult.err [e]
      | none => AdmitResult.ok (createBooking l user req)
  else AdmitResult.err (fieldErrors listings today req)

/-- The error raised by `validate_status`, naming the current and requested
states. -/
structure TransitionError where
  current : BStatus
  requested : BStatus
deriving DecidableEq, Repr

/-- The `allowed_transitions` table of `BookingUpdateSerializer.validate_status`. -/
def allowed_transitions : BStatus → List BStatus
  | BStatus.pending => [BStatus.confirmed, BStatus.cancelled]
  | BStatus.confirmed => [BStatus.completed, BStatus.cancelled]
  | BStatus.cancelled => []
  | BStatus.completed => []

deriving instance DecidableEq for Except

/-- `BookingUpdateSerializer.validate_status`: accept the target status when
the table allows it, otherwise raise naming both states. -/
def validate_status (current target : BStatus) : Except TransitionError BStatus :=
  if target ∈ allowed_transitions current then Except.ok target
  else Except.error { current := current, requested := target }

/-- The writable input of `BookingUpdateSerializer` (`status`,
`special_requests`); a `none` field is absent from the request. -/
structure BookingUpdateInput where
  status : Option BStatus
  special_requests : Option String
deriving DecidableEq, Repr

/-- Applying `BookingUpdateSerializer` to an existing booking: the
`validate_status` guard runs only when a status value is supplied, and only
the `status` and `special_requests` fields are writable. -/
def applyUpdate (b : Booking) (u : BookingUpdateInput) :
    Except TransitionError Booking :=
  match u.status with
  | some t =>
    match validate_status b.status t with
    | Except.error e => Except.error e
    | Except.ok _ =>
      Except.ok { b with status := t,
                         special_requests := u.special_requests.getD b.special_requests }
  | none =>
    Except.ok { b with special_requests := u.special_requests.getD b.special_requests }

end AlxTravel

namespace AlxTravel

/-! ## Fixtures used by witness theorems -/

/-- A published, available listing fixture. -/
def listingW : Listing :=
  { id := 1, status := "published", is_available := true, max_guests := 4,
    minimum_stay := 1, maximum_stay := none, price_per_night := 100 }

/-- A confirmed booking fixture on `listingW`, occupying days 10 to 15. -/
def bookingW : Booking :=
  { listing_id := 1, user_id := 2, check_in_date := 10, check_out_date := 15,
    guests := 2, total_price := 500, status := BStatus.confirmed,
    special_requests := "" }

/-- A status-only update input requesting `completed`. -/
def updW : BookingUpdateInput :=
  { status := some BStatus.completed, special_requests := none }

/-- `bookingW` after the `confirmed -> completed` transition. -/
def bookingW1 : Booking := { bookingW with status := BStatus.completed }

/-! ## Helper lemmas -/

/-- Unfolding a successful update: the writable fields are at most `status`
and `special_requests`, and a changed status must come from the transition
table. -/
theorem applyUpdate_ok_elim (b : Booking) (u : BookingUpdateInput) (b' : Booking)
    (h : applyUpdate b u = Except.ok b') :
    b'.listing_id = b.listing_id ∧ b'.user_id = b.user_id ∧
    b'.check_in_date = b.check_in_date ∧ b'.check_out_date = b.check_out_date ∧
    b'.guests = b.guests ∧ b'.total_price = b.total_price ∧
    (b'.status = b.status ∨ b'.status ∈ allowed_transitions b.status) := by
  unfold applyUpdate at h
  split at h
  · rename_i t hs
    split at h
    · exact absurd h (by simp)
    · rename_i x hv
      injection h with h
      subst h
      refine ⟨rfl, rfl, rfl, rfl, rfl, rfl, Or.inr ?_⟩
      unfold validate_status at hv
      by_cases hm : t ∈ allowed_transitions b.status
      · simpa using hm
      · rw [if_neg hm] at hv
        exact absurd hv (by simp)
  · injection h with h
    subst h
    exact ⟨rfl, rfl, rfl, rfl, rfl, rfl, Or.inl rfl⟩

/-- A status reachable in one allowed transition is active only if the source
status was active. -/
theorem allowed_active_source :
    ∀ c t : BStatus, t ∈ allowed_transitions c →
      (t == BStatus.confirmed || t == BStatus.pending) = true →
      (c == BStatus.confirmed || c == BStatus.pending) = true := by
  decide

/-! ## Claim theorems (first group) -/

/-- C3: the status-transition operation accepts exactly the pairs
pending→confirmed, pending→cancelled, confirmed→completed,
confirmed→cancelled, and every other pair fails with an error naming the
current and requested states. -/
theorem transition_table_spec :
    ∀ current target : BStatus,
      (validate_status current target = Except.ok target ↔
        ((current = BStatus.pending ∧ target = BStatus.confirmed) ∨
         (current = BStatus.pending ∧ target = BStatus.cancelled) ∨
         (current = BStatus.confirmed ∧ target = BStatus.completed) ∨
         (current = BStatus.confirmed ∧ target = BStatus.cancelled))) ∧
      (validate_status current target ≠ Except.ok target →
        validate_status current target =
          Except.error { current := current, requested := target }) := by
  decide

/-- C7: a successful update leaves every field other than `status` and
`special_requests` unchanged — in particular `total_price`, the dates, the
guest count, the listing and the owner. -/
theorem update_frame_spec (b : Booking) (u : BookingUpdateInput) (b' : Booking)
    (h : applyUpdate b u = Except.ok b') :
    b'.total_price = b.total_price ∧ b'.check_in_date = b.check_in_date ∧
    b'.check_out_date = b.check_out_date ∧ b'.guests = b.guests ∧
    b'.listing_id = b.listing_id ∧ b'.user_id = b.user_id := by
  obtain ⟨h1, h2, h3, h4, h5, h6, _⟩ := applyUpdate_ok_elim b u b' h
  exact ⟨h6, h3, h4, h5, h1, h2⟩

/-- Witness for C7 at a concrete booking and update. -/
theorem update_frame_spec_witness :
    bookingW1.total_price = bookingW.total_price ∧
    bookingW1.check_in_date = bookingW.check_in_date ∧
    bookingW1.check_out_date = bookingW.check_out_date ∧
    bookingW1.guests = bookingW.guests ∧
    bookingW1.listing_id = bookingW.listing_id ∧
    bookingW1.user_id = bookingW.user_id :=
  update_frame_spec bookingW updW bookingW1 (by decide)

/-- C10: an update that supplies only `special_requests` and no status always
succeeds — the transition guard runs only when a status value is present, so
bookings in any status, terminal ones included, stay editable in that field. -/
theorem special_requests_only_update_spec (b : Booking) (txt : String) :
    applyUpdate b { status := none, special_requests := some txt } =
      Except.ok { b with special_requests := txt } := rfl

/-- C9: a request with a non-positive guest count is always rejected with an
error on the `guests` field, although such a count can never exceed a
listing's (non-negative) maximum guest count. -/
theorem guests_lower_bound_spec (listings : List Listing) (bookings : List Booking)
    (today : Int) (user : Nat) (req : BookingRequest) (hg : req.guests ≤ 0) :
    ∃ errs, admitBooking listings bookings today user req = AdmitResult.err errs ∧
      VError.guestsNotPositive ∈ errs ∧
      errorField VError.guestsNotPositive = some "guests" ∧
      ∀ l : Listing, 0 ≤ l.max_guests → ¬ req.guests > l.max_guests := by
  have hmem : VError.guestsNotPositive ∈ fieldErrors listings today req := by
    simp [fieldErrors, hg]
  have hne : fieldErrors listings today req ≠ [] := List.ne_nil_of_mem hmem
  have hemp : (fieldErrors listings today req).isEmpty = false := by
    simpa [List.isEmpty_iff] using hne
  refine ⟨fieldErrors listings today req, ?_, hmem, rfl, ?_⟩
  · simp [admitBooking, hemp]
  · intro l hl
    omega

/-- Witness for C9: a zero-guest request against the fixture listing. -/
theorem guests_lower_bound_spec_witness :
    ∃ errs,
      admitBooking [listingW] [] 0 7
          { listing_id := 1, check_in_date := 5, check_out_date := 8,
            guests := 0, special_requests := "" } = AdmitResult.err errs ∧
      VError.guestsNotPositive ∈ errs ∧
      errorField VError.guestsNotPositive = some "guests" ∧
      ∀ l : Listing, 0 ≤ l.max_guests →
        ¬ ({ listing_id := 1, check_in_date := 5, check_out_date := 8,
             guests := 0, special_requests := "" } : BookingRequest).guests > l.max_guests :=
  guests_lower_bound_spec [listingW] [] 0 7 _ (by decide)

end AlxTravel

namespace AlxTravel

/-! ## Helper lemmas on the admission pipeline -/

/-- When field validation passes and the listing is found, admission is
decided by the cross-field `validate` method alone. -/
theorem admitBooking_eq (listings : List Listing) (bookings : List Booking)
    (today : Int) (user : Nat) (req : BookingRequest) (l : Listing)
    (hfe : fieldErrors listings today req = [])
    (hl : lookupById listings req.listing_id = some l) :
    admitBooking listings bookings today user req =
      (match crossValidate l bookings req with
       | some e => AdmitResult.err [e]
       | none => AdmitResult.ok (createBooking l user req)) := by
  unfold admitBooking
  rw [hfe, hl]
  rfl

/-- Unfolding a successful admission. -/
theorem admitBooking_ok_elim (listings : List Listing) (bookings : List Booking)
    (today : Int) (user : Nat) (req : BookingRequest) (b : Booking)
    (h : admitBooking listings bookings today user req = AdmitResult.ok b) :
    ∃ l, lookupById listings req.listing_id = some l ∧
      crossValidate l bookings req = none ∧ b = createBooking l user req := by
  unfold admitBooking at h
  split at h
  · split at h
    · exact absurd h (by simp)
    · rename_i l hl
      split at h
      · exact absurd h (by simp)
      · rename_i hcv
        injection h with h
        exact ⟨l, hl, hcv, h.symm⟩
  · exact absurd h (by simp)

/-- A passing cross-field `validate` implies every one of its five
constraints holds. -/
theorem crossValidate_none_elim (l : Listing) (bookings : List Booking)
    (req : BookingRequest) (h : crossValidate l bookings req = none) :
    req.check_in_date < req.check_out_date ∧
    req.guests ≤ l.max_guests ∧
    l.minimum_stay ≤ req.check_out_date - req.check_in_date ∧
    maxStayExceeded l.maximum_stay (req.check_out_date - req.check_in_date) = false ∧
    hasOverlap bookings l.id req.check_in_date req.check_out_date = false := by
  unfold crossValidate at h
  split_ifs at h with h1 h2 h3 h4 h5
  all_goals
    first
      | exact Option.noConfusion h
      | exact ⟨by omega, by omega, by omega, by simpa using h4, by simpa using h5⟩

/-- When the first four cross-field constraints hold, `validate` is decided by
the overlap query. -/
theorem crossValidate_eval (l : Listing) (bookings : List Booking)
    (req : BookingRequest)
    (h1 : req.check_in_date < req.check_out_date)
    (h2 : req.guests ≤ l.max_guests)
    (h3 : l.minimum_stay ≤ req.check_out_date - req.check_in_date)
    (h4 : maxStayExceeded l.maximum_stay (req.check_out_date - req.check_in_date) = false) :
    crossValidate l bookings req =
      (if hasOverlap bookings l.id req.check_in_date req.check_out_date = true then
        some VError.dateRangeUnavailable
      else none) := by
  unfold crossValidate
  rw [if_neg (by omega), if_neg (by omega), if_neg (by omega), if_neg (by simp [h4])]

/-- The overlap query finds a booking exactly when some pending-or-confirmed
booking of the listing satisfies the half-open overlap condition. -/
theorem hasOverlap_iff (bookings : List Booking) (lid : Nat) (ci co : Int) :
    hasOverlap bookings lid ci co = true ↔
      ∃ b ∈ bookings, b.listing_id = lid ∧ isActive b = true ∧
        b.check_in_date < co ∧ b.check_out_date > ci := by
  unfold hasOverlap overlapsRange
  simp [List.any_eq_true, Bool.and_eq_true, and_assoc]

/-- The truthiness guard fires exactly for a non-null, non-zero maximum stay
smaller than the duration. -/
theorem maxStayExceeded_iff (m : Option Int) (d : Int) :
    maxStayExceeded m d = true ↔ ∃ v, m = some v ∧ v ≠ 0 ∧ v < d := by
  cases m with
  | none => simp [maxStayExceeded]
  | some v => simp [maxStayExceeded]

/-! ## Claim theorems (second group) -/

/-- C1: past steps 1-5, admission fails with the unavailable-dates error iff
some pending-or-confirmed booking of the listing overlaps the requested range
under half-open semantics; a booking checking out the day the request checks
in never satisfies that condition. -/
theorem overlap_rejection_spec (listings : List Listing) (bookings : List Booking)
    (today : Int) (user : Nat) (req : BookingRequest) (l : Listing)
    (hfe : fieldErrors listings today req = [])
    (hl : lookupById listings req.listing_id = some l)
    (hrange : req.check_in_date < req.check_out_date)
    (hcap : req.guests ≤ l.max_guests)
    (hmin : l.minimum_stay ≤ req.check_out_date - req.check_in_date)
    (hmax : maxStayExceeded l.maximum_stay (req.check_out_date - req.check_in_date) = false) :
    (admitBooking listings bookings today user req =
        AdmitResult.err [VError.dateRangeUnavailable] ↔
      ∃ b ∈ bookings, b.listing_id = l.id ∧ isActive b = true ∧
        b.check_in_date < req.check_out_date ∧
        b.check_out_date > req.check_in_date) ∧
    (∀ b : Booking, b.check_out_date = req.check_in_date →
      ¬ (b.check_in_date < req.check_out_date ∧
         b.check_out_date > req.check_in_date)) := by
  have hev := admitBooking_eq listings bookings today user req l hfe hl
  rw [crossValidate_eval l bookings req hrange hcap hmin hmax] at hev
  refine ⟨?_, ?_⟩
  · by_cases hov : hasOverlap bookings l.id req.check_in_date req.check_out_date = true
    · rw [if_pos hov] at hev
      rw [hev]
      simp only [eq_self_iff_true, true_iff]
      exact (hasOverlap_iff bookings l.id req.check_in_date req.check_out_date).mp hov
    · rw [if_neg hov] at hev
      rw [hev]
      constructor
      · intro hx
        exact absurd hx (by simp)
      · intro hx
        exact absurd ((hasOverlap_iff bookings l.id req.check_in_date
          req.check_out_date).mpr hx) hov
  · intro b hb hx
    omega

/-- Witness for C1: a request overlapping the confirmed fixture booking is
rejected with the unavailable-dates error. -/
theorem overlap_rejection_spec_witness :
    admitBooking [listingW] [bookingW] 0 7
        { listing_id := 1, check_in_date := 12, check_out_date := 16,
          guests := 2, special_requests := "" } =
      AdmitResult.err [VError.dateRangeUnavailable] :=
  (overlap_rejection_spec [listingW] [bookingW] 0 7 _ listingW
      (by rfl) (by rfl) (by decide) (by decide) (by decide) (by rfl)).1.mpr
    ⟨bookingW, by simp, by rfl, by rfl, by decide, by decide⟩

/-- C2: an admitted booking's total price is the listing's nightly price times
the number of nights, the booking keeps the requested dates, and the night
count is at least 1. -/
theorem total_price_spec (listings : List Listing) (bookings : List Booking)
    (today : Int) (user : Nat) (req : BookingRequest) (b : Booking)
    (h : admitBooking listings bookings today user req = AdmitResult.ok b) :
    ∃ l, lookupById listings req.listing_id = some l ∧
      b.total_price =
        l.price_per_night * ((req.check_out_date - req.check_in_date : Int) : Rat) ∧
      1 ≤ req.check_out_date - req.check_in_date ∧
      b.check_in_date = req.check_in_date ∧
      b.check_out_date = req.check_out_date := by
  obtain ⟨l, hl, hcv, hb⟩ :=
    admitBooking_ok_elim listings bookings today user req b h
  obtain ⟨h1, -, -, -, -⟩ := crossValidate_none_elim l bookings req hcv
  subst hb
  exact ⟨l, hl, rfl, by omega, rfl, rfl⟩

/-- Witness for C2: a concrete three-night admission. -/
theorem total_price_spec_witness :
    ∃ l, lookupById [listingW]
        ({ listing_id := 1, check_in_date := 20, check_out_date := 23,
           guests := 2, special_requests := "" } : BookingRequest).listing_id = some l ∧
      (createBooking listingW 7
        { listing_id := 1, check_in_date := 20, check_out_date := 23,
          guests := 2, special_requests := "" }).total_price =
        l.price_per_night * ((23 - 20 : Int) : Rat) ∧
      1 ≤ (23 - 20 : Int) ∧
      (createBooking listingW 7
        { listing_id := 1, check_in_date := 20, check_out_date := 23,
          guests := 2, special_requests := "" }).check_in_date = 20 ∧
      (createBooking listingW 7
        { listing_id := 1, check_in_date := 20, check_out_date := 23,
          guests := 2, special_requests := "" }).check_out_date = 23 :=
  total_price_spec [listingW] [] 0 7 _ _ (by rfl)

end AlxTravel

namespace AlxTravel

/-- The spec's example listing: `min_stay=2, max_stay=14, max_guests=4`. -/
def listingEx : Listing :=
  { id := 3, status := "published", is_available := true, max_guests := 4,
    minimum_stay := 2, maximum_stay := some 14, price_per_night := 50 }

/-- A listing storing a zero maximum stay. -/
def listingZeroMax : Listing :=
  { id := 5, status := "published", is_available := true, max_guests := 4,
    minimum_stay := 1, maximum_stay := some 0, price_per_night := 50 }

/-- C5: past steps 1-4, admission fails with one of the stay-duration errors
iff the duration is below the minimum stay or above a defined (non-null,
non-zero) maximum stay. -/
theorem stay_duration_spec (listings : List Listing) (bookings : List Booking)
    (today : Int) (user : Nat) (req : BookingRequest) (l : Listing)
    (hfe : fieldErrors listings today req = [])
    (hl : lookupById listings req.listing_id = some l)
    (hrange : req.check_in_date < req.check_out_date)
    (hcap : req.guests ≤ l.max_guests) :
    (admitBooking listings bookings today user req =
        AdmitResult.err [VError.minStayTooShort] ∨
     admitBooking listings bookings today user req =
        AdmitResult.err [VError.maxStayTooLong]) ↔
      (req.check_out_date - req.check_in_date < l.minimum_stay ∨
       ∃ v, l.maximum_stay = some v ∧ v ≠ 0 ∧
         v < req.check_out_date - req.check_in_date) := by
  have hev := admitBooking_eq listings bookings today user req l hfe hl
  unfold crossValidate at hev
  rw [if_neg (by omega), if_neg (by omega)] at hev
  by_cases h3 : req.check_out_date - req.check_in_date < l.minimum_stay
  · rw [if_pos h3] at hev
    simp [hev, h3]
  · rw [if_neg h3] at hev
    by_cases h4 : maxStayExceeded l.maximum_stay
        (req.check_out_date - req.check_in_date) = true
    · rw [if_pos h4] at hev
      have hex := (maxStayExceeded_iff l.maximum_stay
        (req.check_out_date - req.check_in_date)).mp h4
      exact ⟨fun _ => Or.inr hex, fun _ => Or.inr hev⟩
    · rw [if_neg h4] at hev
      have hnotex : ¬ ∃ v, l.maximum_stay = some v ∧ v ≠ 0 ∧
          v < req.check_out_date - req.check_in_date := by
        rw [← maxStayExceeded_iff]
        simpa using h4
      constructor
      · intro hL
        exfalso
        by_cases hov : hasOverlap bookings l.id req.check_in_date
            req.check_out_date = true
        · rw [if_pos hov] at hev
          rcases hL with hL | hL <;> rw [hev] at hL <;> simp at hL
        · rw [if_neg hov] at hev
          rcases hL with hL | hL <;> rw [hev] at hL <;> simp at hL
      · intro hR
        rcases hR with hR | hR
        · exact absurd hR h3
        · exact absurd hR hnotex

/-- Witness for C5: the spec's one-night request against the example listing
is rejected with the minimum-stay error. -/
theorem stay_duration_spec_witness :
    admitBooking [listingEx] [] 0 7
        { listing_id := 3, check_in_date := 5, check_out_date := 6,
          guests := 2, special_requests := "" } =
      AdmitResult.err [VError.minStayTooShort] ∨
    admitBooking [listingEx] [] 0 7
        { listing_id := 3, check_in_date := 5, check_out_date := 6,
          guests := 2, special_requests := "" } =
      AdmitResult.err [VError.maxStayTooLong] :=
  (stay_duration_spec [listingEx] [] 0 7 _ listingEx
      (by rfl) (by rfl) (by decide) (by decide)).mpr (Or.inl (by decide))

/-- C8: a null or zero stored maximum stay disables the maximum-stay check
entirely, so any request meeting the minimum stay passes the stay-duration
step no matter how long it is. -/
theorem max_stay_truthiness_spec (l : Listing) (bookings : List Booking)
    (req : BookingRequest)
    (hmax : l.maximum_stay = none ∨ l.maximum_stay = some 0)
    (hrange : req.check_in_date < req.check_out_date)
    (hcap : req.guests ≤ l.max_guests)
    (hmin : l.minimum_stay ≤ req.check_out_date - req.check_in_date) :
    crossValidate l bookings req ≠ some VError.minStayTooShort ∧
    crossValidate l bookings req ≠ some VError.maxStayTooLong := by
  have h4 : maxStayExceeded l.maximum_stay
      (req.check_out_date - req.check_in_date) = false := by
    rcases hmax with h | h <;> rw [h] <;> simp [maxStayExceeded]
  rw [crossValidate_eval l bookings req hrange hcap hmin h4]
  by_cases hov : hasOverlap bookings l.id req.check_in_date
      req.check_out_date = true
  · rw [if_pos hov]
    exact ⟨by simp, by simp⟩
  · rw [if_neg hov]
    exact ⟨by simp, by simp⟩

/-- Witness for C8: a ten-thousand-night request against a listing whose
stored maximum stay is zero is not rejected for stay duration. -/
theorem max_stay_truthiness_spec_witness :
    crossValidate listingZeroMax []
        { listing_id := 5, check_in_date := 5, check_out_date := 10005,
          guests := 2, special_requests := "" } ≠
      some VError.minStayTooShort ∧
    crossValidate listingZeroMax []
        { listing_id := 5, check_in_date := 5, check_out_date := 10005,
          guests := 2, special_requests := "" } ≠
      some VError.maxStayTooLong :=
  max_stay_truthiness_spec listingZeroMax [] _
    (Or.inr rfl) (by decide) (by decide) (by decide)

end AlxTravel

namespace AlxTravel

/-- The published-available lookup fails exactly when no listed listing is a
published, available match for the id. -/
theorem lookupPublishedAvailable_eq_none_iff (listings : List Listing) (i : Nat) :
    lookupPublishedAvailable listings i = none ↔
      ¬ ∃ l' ∈ listings, l'.id = i ∧ l'.status = "published" ∧
        l'.is_available = true := by
  unfold lookupPublishedAvailable
  rw [List.find?_eq_none]
  simp [Bool.and_eq_true, and_assoc]

/-- Counterexample to C6 as stated: a request whose listing id matches nothing
and whose check-in is not in the future is answered with two errors at once,
not with exactly the error of the earliest violated step. -/
theorem validation_failfast_cex :
    admitBooking [] [] 0 7
        { listing_id := 9, check_in_date := 0, check_out_date := 5,
          guests := 2, special_requests := "" } =
      AdmitResult.err [VError.invalidListing, VError.checkInNotFuture] ∧
    ¬ ∃ e, admitBooking [] [] 0 7
        { listing_id := 9, check_in_date := 0, check_out_date := 5,
          guests := 2, special_requests := "" } = AdmitResult.err [e] := by
  decide

/-- C6 (amended): the four field-level checks all run, collecting one
field-tagged error per violated check and reporting them together; only when
all of them pass do the cross-field checks run, failing fast with exactly one
error in the order date range, capacity, minimum stay, maximum stay, overlap,
the overlap error being the only one without a field tag. -/
theorem validation_order_spec (listings : List Listing) (bookings : List Booking)
    (today : Int) (user : Nat) (req : BookingRequest) (l : Listing)
    (hl : lookupById listings req.listing_id = some l) :
    (fieldErrors listings today req ≠ [] →
      admitBooking listings bookings today user req =
        AdmitResult.err (fieldErrors listings today req)) ∧
    (VError.invalidListing ∈ fieldErrors listings today req ↔
      ¬ ∃ l' ∈ listings, l'.id = req.listing_id ∧ l'.status = "published" ∧
        l'.is_available = true) ∧
    (VError.checkInNotFuture ∈ fieldErrors listings today req ↔
      req.check_in_date ≤ today) ∧
    (VError.checkOutNotFuture ∈ fieldErrors listings today req ↔
      req.check_out_date ≤ today) ∧
    (VError.guestsNotPositive ∈ fieldErrors listings today req ↔
      req.guests ≤ 0) ∧
    (∀ e ∈ fieldErrors listings today req, errorField e ≠ none) ∧
    (errorField VError.dateRangeUnavailable = none) ∧
    (fieldErrors listings today req = [] →
      (req.check_out_date ≤ req.check_in_date →
        admitBooking listings bookings today user req =
          AdmitResult.err [VError.invalidDateRange]) ∧
      (req.check_in_date < req.check_out_date →
        req.guests > l.max_guests →
        admitBooking listings bookings today user req =
          AdmitResult.err [VError.capacityExceeded]) ∧
      (req.check_in_date < req.check_out_date →
        req.guests ≤ l.max_guests →
        req.check_out_date - req.check_in_date < l.minimum_stay →
        admitBooking listings bookings today user req =
          AdmitResult.err [VError.minStayTooShort]) ∧
      (req.check_in_date < req.check_out_date →
        req.guests ≤ l.max_guests →
        l.minimum_stay ≤ req.check_out_date - req.check_in_date →
        maxStayExceeded l.maximum_stay (req.check_out_date - req.check_in_date) = true →
        admitBooking listings bookings today user req =
          AdmitResult.err [VError.maxStayTooLong]) ∧
      (req.check_in_date < req.check_out_date →
        req.guests ≤ l.max_guests →
        l.minimum_stay ≤ req.check_out_date - req.check_in_date →
        maxStayExceeded l.maximum_stay (req.check_out_date - req.check_in_date) = false →
        hasOverlap bookings l.id req.check_in_date req.check_out_date = true →
        admitBooking listings bookings today user req =
          AdmitResult.err [VError.dateRangeUnavailable]) ∧
      (∀ errs, admitBooking listings bookings today user req =
          AdmitResult.err errs → ∃ e, errs = [e])) := by
  have hmem : ∀ e : VError,
      (e ∈ fieldErrors listings today req ↔
        ((e = VError.invalidListing ∧
            lookupPublishedAvailable listings req.listing_id = none) ∨
         (e = VError.checkInNotFuture ∧ req.check_in_date ≤ today) ∨
         (e = VError.checkOutNotFuture ∧ req.check_out_date ≤ today) ∨
         (e = VError.guestsNotPositive ∧ req.guests ≤ 0))) := by
    intro e
    unfold fieldErrors
    by_cases c1 : lookupPublishedAvailable listings req.listing_id = none <;>
      by_cases c2 : req.check_in_date ≤ today <;>
        by_cases c3 : req.check_out_date ≤ today <;>
          by_cases c4 : req.guests ≤ 0 <;>
            simp [c1, c2, c3, c4]
  refine ⟨?_, ?_, ?_, ?_, ?_, ?_, rfl, ?_⟩
  · intro hne
    unfold admitBooking
    rw [if_neg (by simpa [List.isEmpty_iff] using hne)]
  · rw [hmem, ← lookupPublishedAvailable_eq_none_iff]
    simp
  · rw [hmem]
    simp
  · rw [hmem]
    simp
  · rw [hmem]
    simp
  · intro e he
    rcases (hmem e).mp he with ⟨h, -⟩ | ⟨h, -⟩ | ⟨h, -⟩ | ⟨h, -⟩ <;>
      subst h <;> simp [errorField]
  · intro hfe
    have heq := admitBooking_eq listings bookings today user req l hfe hl
    refine ⟨?_, ?_, ?_, ?_, ?_, ?_⟩
    · intro h1
      rw [heq]
      unfold crossValidate
      rw [if_pos h1]
    · intro h1 h2
      rw [heq]
      unfold crossValidate
      rw [if_neg (by omega), if_pos h2]
    · intro h1 h2 h3
      rw [heq]
      unfold crossValidate
      rw [if_neg (by omega), if_neg (by omega), if_pos h3]
    · intro h1 h2 h3 h4
      rw [heq]
      unfold crossValidate
      rw [if_neg (by omega), if_neg (by omega), if_neg (by omega), if_pos h4]
    · intro h1 h2 h3 h4 h5
      rw [heq]
      unfold crossValidate
      rw [if_neg (by omega), if_neg (by omega), if_neg (by omega),
        if_neg (by simp [h4]), if_pos h5]
    · intro errs herr
      cases hcv : crossValidate l bookings req with
      | some e =>
        simp only [hcv] at heq
        rw [heq] at herr
        injection herr with h
        exact ⟨e, h.symm⟩
      | none =>
        simp only [hcv] at heq
        rw [heq] at herr
        exact absurd herr (by simp)

/-- Witness for C6 (amended): a request with a past check-in is answered with
exactly the collected field errors. -/
theorem validation_order_spec_witness :
    admitBooking [listingW] [] 0 7
        { listing_id := 1, check_in_date := 0, check_out_date := 5,
          guests := 2, special_requests := "" } =
      AdmitResult.err (fieldErrors [listingW] 0
        { listing_id := 1, check_in_date := 0, check_out_date := 5,
          guests := 2, special_requests := "" }) :=
  (validation_order_spec [listingW] [] 0 7 _ listingW (by rfl)).1 (by decide)

/-! ## The sequential booking-table state machine -/

/-- Two bookings are compatible when, if they share a listing and are both
pending or confirmed, their date ranges do not overlap (half-open). -/
def Compat (a b : Booking) : Prop :=
  a.listing_id = b.listing_id → isActive a = true → isActive b = true →
    ¬ (a.check_in_date < b.check_out_date ∧ a.check_out_date > b.check_in_date)

/-- The double-booking invariant over the booking table. -/
def NoOverlap (s : List Booking) : Prop := List.Pairwise Compat s

/-- One sequential operation on the booking table: an admission appending the
created booking, or an update of one booking through
`BookingUpdateSerializer`. -/
inductive Step (listings : List Listing) : List Booking → List Booking → Prop
  | book (s : List Booking) (today : Int) (user : Nat) (req : BookingRequest)
      (b : Booking) :
      admitBooking listings s today user req = AdmitResult.ok b →
      Step listings s (s ++ [b])
  | update (s : List Booking) (i : Nat) (hi : i < s.length)
      (u : BookingUpdateInput) (b' : Booking) :
      applyUpdate (s.get ⟨i, hi⟩) u = Except.ok b' →
      Step listings s (s.set i b')

/-- Booking tables reachable from the empty table by sequential operations. -/
inductive Reachable (listings : List Listing) : List Booking → Prop
  | init : Reachable listings []
  | step (s s' : List Booking) :
      Reachable listings s → Step listings s s' → Reachable listings s'

/-- A failed overlap query certifies non-overlap against each active booking
of the listing. -/
theorem hasOverlap_false_elim {bookings : List Booking} {lid : Nat}
    {ci co : Int} (h : hasOverlap bookings lid ci co = false) :
    ∀ b ∈ bookings, b.listing_id = lid → isActive b = true →
      ¬ (b.check_in_date < co ∧ b.check_out_date > ci) := by
  unfold hasOverlap at h
  intro b hb hlid hact hcon
  apply List.any_eq_false.mp h b hb
  simp [hlid, hact, overlapsRange, hcon.1, hcon.2]

/-- Replacing one list element by a pairwise-weaker one preserves
`Pairwise`. -/
theorem pairwise_set_of_weaken {α : Type} {R : α → α → Prop} :
    ∀ (l : List α) (i : Nat) (hi : i < l.length) (b : α), l.Pairwise R →
      (∀ x, R (l.get ⟨i, hi⟩) x → R b x) →
      (∀ x, R x (l.get ⟨i, hi⟩) → R x b) →
      (l.set i b).Pairwise R
  | [], i, hi, b, _, _, _ => absurd hi (Nat.not_lt_zero i)
  | a :: l, 0, hi, b, hp, h1, h2 => by
    rw [List.pairwise_cons] at hp
    rw [List.set_cons_zero, List.pairwise_cons]
    exact ⟨fun x hx => h1 x (hp.1 x hx), hp.2⟩
  | a :: l, i + 1, hi, b, hp, h1, h2 => by
    rw [List.pairwise_cons] at hp
    rw [List.set_cons_succ, List.pairwise_cons]
    have hi' : i < l.length := by simpa using hi
    refine ⟨?_, pairwise_set_of_weaken l i hi' b hp.2
      (fun x hx => h1 x hx) (fun x hx => h2 x hx)⟩
    intro x hx
    rcases List.mem_or_eq_of_mem_set hx with hm | hm
    · exact hp.1 x hm
    · subst hm
      exact h2 a (hp.1 _ (List.get_mem l i hi'))

/-- Every sequential operation preserves the double-booking invariant. -/
theorem noOverlap_step {listings : List Listing} {s s' : List Booking}
    (hs : NoOverlap s) (hstep : Step listings s s') : NoOverlap s' := by
  cases hstep with
  | book today user req b hadmit =>
    obtain ⟨l, hl, hcv, hb⟩ :=
      admitBooking_ok_elim listings s today user req b hadmit
    obtain ⟨-, -, -, -, hov⟩ := crossValidate_none_elim l s req hcv
    rw [NoOverlap, List.pairwise_append]
    refine ⟨hs, List.pairwise_singleton Compat b, ?_⟩
    intro a ha x hx
    rw [List.mem_singleton] at hx
    subst hx
    subst hb
    intro hlid hact hbact hcon
    obtain ⟨hc1, hc2⟩ := hcon
    have hlid' : a.listing_id = l.id := by
      simpa [createBooking] using hlid
    simp only [createBooking] at hc1 hc2
    exact hasOverlap_false_elim hov a ha hlid' hact ⟨hc1, hc2⟩
  | update i hi u b' hupd =>
    obtain ⟨hlid, huid, hci, hco, hg, htp, hstat⟩ :=
      applyUpdate_ok_elim _ u b' hupd
    have hact : isActive b' = true → isActive (s.get ⟨i, hi⟩) = true := by
      rcases hstat with h | h
      · intro hb'
        unfold isActive at hb' ⊢
        rw [← h]
        exact hb'
      · exact fun hb' => allowed_active_source _ _ h hb'
    apply pairwise_set_of_weaken s i hi b' hs
    · intro x hx
      intro hl1 hb1 hx1 hcon
      obtain ⟨hc1, hc2⟩ := hcon
      refine hx ?_ (hact hb1) hx1 ⟨by omega, by omega⟩
      rw [← hlid]
      exact hl1
    · intro x hx
      intro hl1 hx1 hb1 hcon
      obtain ⟨hc1, hc2⟩ := hcon
      refine hx ?_ hx1 (hact hb1) ⟨by omega, by omega⟩
      rw [hlid] at hl1
      exact hl1

/-- C4: in every booking table reachable by sequential admissions and
updates, no two pending-or-confirmed bookings of one listing have overlapping
date ranges. -/
theorem no_double_booking_invariant (listings : List Listing)
    (s : List Booking) (h : Reachable listings s) : NoOverlap s := by
  induction h with
  | init => exact List.Pairwise.nil
  | step s s' hr hstep ih => exact noOverlap_step ih hstep

/-- Witness for C4: the table reached by one concrete admission satisfies the
invariant. -/
theorem no_double_booking_invariant_witness :
    NoOverlap [createBooking listingW 7
      { listing_id := 1, check_in_date := 30, check_out_date := 33,
        guests := 2, special_requests := "" }] :=
  no_double_booking_invariant [listingW] _
    (Reachable.step [] _ Reachable.init
      (Step.book [] 0 7
        { listing_id := 1, check_in_date := 30, check_out_date := 33,
          guests := 2, special_requests := "" }
        (createBooking listingW 7
          { listing_id := 1, check_in_date := 30, check_out_date := 33,
            guests := 2, special_requests := "" })
        (by rfl)))

end AlxTravel
